import Mathlib

/-!
Verification of the declarative topology in `src/Infra/__main__.py`
(a Pulumi program declaring a VPC, subnets, routing, NAT, a security
group, an SSH key pair and EC2 instances) against its design
specification.

The Python source is a straight-line sequence of resource declarations
handed to an external provisioning engine.  We embed each declaration as
a Lean value mirroring the arguments passed in the source, the module
order as an explicit declaration list, and the builder operations the
specification describes (validation, topological resolution) as
executable Lean functions.  CIDR strings such as `'10.0.1.0/24'` are
embedded as the structured value of their four octets and mask length.
-/

namespace Infra

/-- An IPv4 CIDR block, the structured reading of a string such as
`'10.0.1.0/24'`: four octets and a mask length. -/
structure Cidr where
  o1 : Nat
  o2 : Nat
  o3 : Nat
  o4 : Nat
  maskLen : Nat
deriving DecidableEq, Repr

/-- The 32-bit base address of the block. -/
def Cidr.base (c : Cidr) : Nat :=
  ((c.o1 * 256 + c.o2) * 256 + c.o3) * 256 + c.o4

/-- Number of addresses covered by the block. -/
def Cidr.blockSize (c : Cidr) : Nat :=
  2 ^ (32 - c.maskLen)

/-- One past the last address of the block. -/
def Cidr.lastAddr (c : Cidr) : Nat :=
  c.base + c.blockSize

/-- `a` is contained in `b` (as address ranges). -/
def Cidr.subsetOf (a b : Cidr) : Bool :=
  decide (b.base ≤ a.base) && decide (a.lastAddr ≤ b.lastAddr)

/-- The address ranges of `a` and `b` intersect. -/
def Cidr.overlapsWith (a b : Cidr) : Bool :=
  decide (a.base < b.lastAddr) && decide (b.base < a.lastAddr)

/-- The target of a route rule, as passed in the source: either a
`gateway_id` or a `nat_gateway_id` reference (by logical name). -/
inductive RouteTarget
  | gatewayId (n : String)
  | natGatewayId (n : String)
deriving DecidableEq, Repr

/-- The logical name a route target refers to. -/
def RouteTarget.refName : RouteTarget → String
  | .gatewayId n => n
  | .natGatewayId n => n

/-- One route rule: destination CIDR and target. -/
structure Route where
  cidr_block : Cidr
  target : RouteTarget
deriving DecidableEq, Repr

/-- One security-group rule as passed in the source: protocol, port
range and source CIDR blocks. -/
structure SGRule where
  protocol : String
  from_port : Nat
  to_port : Nat
  cidr_blocks : List Cidr
deriving DecidableEq, Repr

/-- Arguments of `ec2.Vpc`. -/
structure VpcArgs where
  cidr_block : Cidr
  enable_dns_hostnames : Bool
  enable_dns_support : Bool
deriving DecidableEq, Repr

/-- Arguments of `ec2.Subnet`. -/
structure SubnetArgs where
  vpc_id : String
  cidr_block : Cidr
  map_public_ip_on_launch : Bool
  availability_zone : String
deriving DecidableEq, Repr

/-- Arguments of `ec2.InternetGateway`. -/
structure InternetGatewayArgs where
  vpc_id : String
deriving DecidableEq, Repr

/-- Arguments of `ec2.RouteTable`. -/
structure RouteTableArgs where
  vpc_id : String
  routes : List Route
deriving DecidableEq, Repr

/-- Arguments of `ec2.RouteTableAssociation`. -/
structure RouteTableAssociationArgs where
  subnet_id : String
  route_table_id : String
deriving DecidableEq, Repr

/-- Arguments of `ec2.Eip`. -/
structure EipArgs where
  vpc : Bool
deriving DecidableEq, Repr

/-- Arguments of `ec2.NatGateway`. -/
structure NatGatewayArgs where
  subnet_id : String
  allocation_id : String
deriving DecidableEq, Repr

/-- Arguments of `ec2.SecurityGroup`. -/
structure SecurityGroupArgs where
  description : String
  vpc_id : String
  ingress : List SGRule
  egress : List SGRule
deriving DecidableEq, Repr

/-- Arguments of `ec2.KeyPair`. -/
structure KeyPairArgs where
  key_name : String
  public_key : String
deriving DecidableEq, Repr

/-- Arguments of `ec2.Instance`. -/
structure InstanceArgs where
  instance_type : String
  ami : String
  subnet_id : String
  vpc_security_group_ids : List String
  key_name : String
  tags : List (String × String)
deriving DecidableEq, Repr

/-- The kinds of resources declared by the source, each carrying the
arguments the source passes. -/
inductive ResourceArgs
  | vpc (a : VpcArgs)
  | subnet (a : SubnetArgs)
  | internetGateway (a : InternetGatewayArgs)
  | routeTable (a : RouteTableArgs)
  | routeTableAssociation (a : RouteTableAssociationArgs)
  | eip (a : EipArgs)
  | natGateway (a : NatGatewayArgs)
  | securityGroup (a : SecurityGroupArgs)
  | keyPair (a : KeyPairArgs)
  | ec2Instance (a : InstanceArgs)
deriving DecidableEq, Repr

/-- A declared resource: logical name plus kind-specific arguments.
Cross-resource references (`vpc.id`, `subnet.id`, ...) are embedded as
the referenced resource's logical name. -/
structure Resource where
  name : String
  args : ResourceArgs
deriving DecidableEq, Repr

/-- The logical names of the resources a resource references.  An
instance's `key_name` refers to the key pair's `key_name` attribute; in
the source that attribute equals the key pair's logical name
`"my-key-pair"`, so the reference is by that name. -/
def Resource.refs (r : Resource) : List String :=
  match r.args with
  | .vpc _ => []
  | .subnet a => [a.vpc_id]
  | .internetGateway a => [a.vpc_id]
  | .routeTable a => a.vpc_id :: a.routes.map (fun rt => rt.target.refName)
  | .routeTableAssociation a => [a.subnet_id, a.route_table_id]
  | .eip _ => []
  | .natGateway a => [a.subnet_id, a.allocation_id]
  | .securityGroup a => [a.vpc_id]
  | .keyPair _ => []
  | .ec2Instance a => a.subnet_id :: a.vpc_security_group_ids ++ [a.key_name]

/-- Whether a resource is an EC2 instance declaration. -/
def Resource.isInstanceDecl (r : Resource) : Bool :=
  match r.args with
  | .ec2Instance _ => true
  | _ => false

-- Configuration constants of the source module.

/-- `instance_type = 't3.small'`. -/
def instance_type : String := "t3.small"

/-- `ami = "ami-003c463c8207b4dfa"`. -/
def ami : String := "ami-003c463c8207b4dfa"

-- The resources declared by the source, in module order.

/-- `ec2.Vpc('my-vpc', cidr_block='10.0.0.0/16', enable_dns_hostnames=True,
enable_dns_support=True)`. -/
def vpc : Resource :=
  { name := "my-vpc",
    args := .vpc { cidr_block := ⟨10, 0, 0, 0, 16⟩,
                   enable_dns_hostnames := true,
                   enable_dns_support := true } }

/-- `ec2.Subnet('public-subnet', vpc_id=vpc.id, cidr_block='10.0.1.0/24',
map_public_ip_on_launch=True, availability_zone='ap-southeast-1a')`. -/
def public_subnet : Resource :=
  { name := "public-subnet",
    args := .subnet { vpc_id := "my-vpc",
                      cidr_block := ⟨10, 0, 1, 0, 24⟩,
                      map_public_ip_on_launch := true,
                      availability_zone := "ap-southeast-1a" } }

/-- `ec2.Subnet('private-subnet', vpc_id=vpc.id, cidr_block='10.0.2.0/24',
map_public_ip_on_launch=False, availability_zone='ap-southeast-1a')`. -/
def private_subnet : Resource :=
  { name := "private-subnet",
    args := .subnet { vpc_id := "my-vpc",
                      cidr_block := ⟨10, 0, 2, 0, 24⟩,
                      map_public_ip_on_launch := false,
                      availability_zone := "ap-southeast-1a" } }

/-- `ec2.InternetGateway('internet-gateway', vpc_id=vpc.id)`. -/
def igw : Resource :=
  { name := "internet-gateway",
    args := .internetGateway { vpc_id := "my-vpc" } }

/-- `ec2.RouteTable('public-route-table', vpc_id=vpc.id,
routes=[cidr_block '0.0.0.0/0' -> gateway_id igw.id])`. -/
def public_route_table : Resource :=
  { name := "public-route-table",
    args := .routeTable
      { vpc_id := "my-vpc",
        routes := [{ cidr_block := ⟨0, 0, 0, 0, 0⟩,
                     target := .gatewayId "internet-gateway" }] } }

/-- `ec2.RouteTableAssociation('public-route-table-association',
subnet_id=public_subnet.id, route_table_id=public_route_table.id)`. -/
def public_route_table_association : Resource :=
  { name := "public-route-table-association",
    args := .routeTableAssociation
      { subnet_id := "public-subnet",
        route_table_id := "public-route-table" } }

/-- `ec2.Eip('nat-eip', vpc=True)`. -/
def eip : Resource :=
  { name := "nat-eip", args := .eip { vpc := true } }

/-- `ec2.NatGateway('nat-gateway', subnet_id=public_subnet.id,
allocation_id=eip.id)`. -/
def nat_gateway : Resource :=
  { name := "nat-gateway",
    args := .natGateway { subnet_id := "public-subnet",
                          allocation_id := "nat-eip" } }

/-- `ec2.RouteTable('private-route-table', vpc_id=vpc.id,
routes=[cidr_block '0.0.0.0/0' -> nat_gateway_id nat_gateway.id])`. -/
def private_route_table : Resource :=
  { name := "private-route-table",
    args := .routeTable
      { vpc_id := "my-vpc",
        routes := [{ cidr_block := ⟨0, 0, 0, 0, 0⟩,
                     target := .natGatewayId "nat-gateway" }] } }

/-- `ec2.RouteTableAssociation('private-route-table-association',
subnet_id=private_subnet.id, route_table_id=private_route_table.id)`. -/
def private_route_table_association : Resource :=
  { name := "private-route-table-association",
    args := .routeTableAssociation
      { subnet_id := "private-subnet",
        route_table_id := "private-route-table" } }

/-- `aws.ec2.SecurityGroup("web-secgrp", description='Enable SSH and K3s
access', vpc_id=vpc.id, ingress=[tcp 22 from 0.0.0.0/0, tcp 6443 from
0.0.0.0/0], egress=[all traffic to 0.0.0.0/0])`. -/
def security_group : Resource :=
  { name := "web-secgrp",
    args := .securityGroup
      { description := "Enable SSH and K3s access",
        vpc_id := "my-vpc",
        ingress :=
          [{ protocol := "tcp", from_port := 22, to_port := 22,
             cidr_blocks := [⟨0, 0, 0, 0, 0⟩] },
           { protocol := "tcp", from_port := 6443, to_port := 6443,
             cidr_blocks := [⟨0, 0, 0, 0, 0⟩] }],
        egress :=
          [{ protocol := "-1", from_port := 0, to_port := 0,
             cidr_blocks := [⟨0, 0, 0, 0, 0⟩] }] } }

/-- `aws.ec2.KeyPair("my-key-pair", key_name="my-key-pair",
public_key=public_key)`, parameterised by the key material read from the
environment. -/
def key_pair (pk : String) : Resource :=
  { name := "my-key-pair",
    args := .keyPair { key_name := "my-key-pair", public_key := pk } }

/-- `ec2.Instance('master-instance', ...)` in the private subnet. -/
def master_instance : Resource :=
  { name := "master-instance",
    args := .ec2Instance
      { instance_type := instance_type, ami := ami,
        subnet_id := "private-subnet",
        vpc_security_group_ids := ["web-secgrp"],
        key_name := "my-key-pair",
        tags := [("Name", "Master Node")] } }

/-- `ec2.Instance('worker-instance-1', ...)` in the private subnet. -/
def worker_instance_1 : Resource :=
  { name := "worker-instance-1",
    args := .ec2Instance
      { instance_type := instance_type, ami := ami,
        subnet_id := "private-subnet",
        vpc_security_group_ids := ["web-secgrp"],
        key_name := "my-key-pair",
        tags := [("Name", "Worker Node 1")] } }

/-- `ec2.Instance('worker-instance-2', ...)` in the private subnet. -/
def worker_instance_2 : Resource :=
  { name := "worker-instance-2",
    args := .ec2Instance
      { instance_type := instance_type, ami := ami,
        subnet_id := "private-subnet",
        vpc_security_group_ids := ["web-secgrp"],
        key_name := "my-key-pair",
        tags := [("Name", "Worker Node 2")] } }

/-- `ec2.Instance('git-runner-instance', ...)` in the public subnet. -/
def git_runner_instance : Resource :=
  { name := "git-runner-instance",
    args := .ec2Instance
      { instance_type := instance_type, ami := ami,
        subnet_id := "public-subnet",
        vpc_security_group_ids := ["web-secgrp"],
        key_name := "my-key-pair",
        tags := [("Name", "Git Runner")] } }

/-- The declarations of the source module that precede the key pair, in
module order. -/
def preKeyDecls : List Resource :=
  [vpc, public_subnet, private_subnet, igw, public_route_table,
   public_route_table_association, eip, nat_gateway, private_route_table,
   private_route_table_association, security_group]

/-- The EC2 instance declarations, in module order (they all follow the
key pair in the source). -/
def instanceDecls : List Resource :=
  [master_instance, worker_instance_1, worker_instance_2,
   git_runner_instance]

/-- The full declaration sequence of the source module, in module order,
parameterised by the key material read from the environment. -/
def declarations (pk : String) : List Resource :=
  preKeyDecls ++ [key_pair pk] ++ instanceDecls

/-- Which deferred IP attribute of an instance an output exports. -/
inductive IpAttr
  | publicIp
  | privateIp
deriving DecidableEq, Repr

/-- One `pulumi.export` entry: output name, the instance it reads, and
which of its IP attributes. -/
structure ExportEntry where
  name : String
  instanceName : String
  attr : IpAttr
deriving DecidableEq, Repr

/-- The four `pulumi.export` calls at the end of the source module, in
order. -/
def exportsList : List ExportEntry :=
  [{ name := "git_runner_public_ip", instanceName := "git-runner-instance",
     attr := .publicIp },
   { name := "master_private_ip", instanceName := "master-instance",
     attr := .privateIp },
   { name := "worker1_private_ip", instanceName := "worker-instance-1",
     attr := .privateIp },
   { name := "worker2_private_ip", instanceName := "worker-instance-2",
     attr := .privateIp }]

/-- The instance and IP attribute an output name is exported from. -/
def exportSource (n : String) : Option (String × IpAttr) :=
  (exportsList.find? fun e => e.name == n).map fun e => (e.instanceName, e.attr)

/-- Modelled from the spec: the error taxonomy of the Topology Builder
(`ConfigError`, `DependencyError`, `CycleError`).  The builder itself is
the external provisioning engine and is not part of `src/`. -/
inductive BuildError
  | configError (msg : String)
  | dependencyError (msg : String)
  | cycleError
deriving DecidableEq, Repr

/-- Modelled from the spec: `declare_subnet(network, cidr, az, public)`
fails with `ConfigError` if the CIDR is not contained in the network's
block or overlaps an existing subnet.  Only the CIDR validation is
modelled; `src/` contains the declaration calls, not the builder. -/
def declare_subnet (networkCidr : Cidr) (existing : List Cidr) (c : Cidr) :
    Except BuildError Cidr :=
  if c.subsetOf networkCidr then
    if existing.any fun e => e.overlapsWith c then
      .error (.configError "subnet CIDR overlaps an existing subnet")
    else
      .ok c
  else
    .error (.configError "subnet CIDR is not contained in the network block")

/-- The default route destination `0.0.0.0/0`. -/
def defaultDest : Cidr := ⟨0, 0, 0, 0, 0⟩

/-- The number of default routes (destination `0.0.0.0/0`) in a rule
list. -/
def defaultRouteCountIn (routes : List Route) : Nat :=
  (routes.filter fun rt => rt.cidr_block == defaultDest).length

/-- Modelled from the spec: `declare_route_table(network, routes)` fails
with `ConfigError` if more than one default route is present.  (The
unresolved-target check the spec also mentions is not needed by the
claims and is left to `validateDecl`-level reference checking.) -/
def declare_route_table (rtName vpcId : String) (routes : List Route) :
    Except BuildError Resource :=
  if defaultRouteCountIn routes ≤ 1 then
    .ok { name := rtName, args := .routeTable { vpc_id := vpcId, routes := routes } }
  else
    .error (.configError "more than one default route in a route table")

/-- Modelled from the spec: `attach_nat(public_subnet)` fails with
`DependencyError` if the subnet is not flagged public; otherwise it
yields the EIP/NAT-gateway pair declared by the source. -/
def attach_nat (s : Resource) : Except BuildError (Resource × Resource) :=
  match s.args with
  | .subnet a =>
      if a.map_public_ip_on_launch then
        .ok (eip, nat_gateway)
      else
        .error (.dependencyError "NAT subnet is not flagged public")
  | _ => .error (.dependencyError "attach_nat target is not a subnet")

/-- Modelled from the spec: `declare_keypair(name, public_key_source)`
fails with `ConfigError` if the public key material is absent or empty
at build time (the source reads it from the `PUBLIC_KEY` environment
value). -/
def declare_keypair (kpName keyName : String) (publicKeySource : Option String) :
    Except BuildError Resource :=
  match publicKeySource with
  | none => .error (.configError "public key material is absent")
  | some pk =>
      if pk == "" then
        .error (.configError "public key material is empty")
      else
        .ok { name := kpName, args := .keyPair { key_name := keyName, public_key := pk } }

/-- The CIDR blocks of the subnets among a list of declared resources. -/
def subnetCidrsOf (rs : List Resource) : List Cidr :=
  rs.filterMap fun r =>
    match r.args with
    | .subnet a => some a.cidr_block
    | _ => none

/-- Modelled from the spec: the validation the Topology Builder performs
when one declaration is added to the already-declared list (fail-fast,
before any external call). -/
def validateDecl (networkCidr : Cidr) (declared : List Resource) (r : Resource) :
    Option BuildError :=
  match r.args with
  | .subnet a =>
      match declare_subnet networkCidr (subnetCidrsOf declared) a.cidr_block with
      | .ok _ => none
      | .error e => some e
  | .routeTable a =>
      match declare_route_table r.name a.vpc_id a.routes with
      | .ok _ => none
      | .error e => some e
  | .natGateway a =>
      match declared.find? fun d => d.name == a.subnet_id with
      | none => some (.dependencyError "NAT subnet is not declared")
      | some s =>
          match attach_nat s with
          | .ok _ => none
          | .error e => some e
  | .keyPair a =>
      if a.public_key == "" then
        some (.configError "public key material is empty")
      else
        none
  | .ec2Instance _ =>
      if r.refs.all fun n => declared.any fun d => d.name == n then
        none
      else
        some (.dependencyError "instance references an undeclared entity")
  | _ => none

/-- Run a sequence of declarations through the builder's validation in
order, stopping at the first error (fail-fast): returns the resources
declared so far and the error, if any. -/
def runDecls (networkCidr : Cidr) :
    List Resource → List Resource → List Resource × Option BuildError
  | declared, [] => (declared, none)
  | declared, r :: rest =>
      match validateDecl networkCidr declared r with
      | some e => (declared, some e)
      | none => runDecls networkCidr (declared ++ [r]) rest

/-- The CIDR block of the VPC, `10.0.0.0/16`. -/
def vpcCidr : Cidr := ⟨10, 0, 0, 0, 16⟩

/-- The whole declaration pass of the source module run through the
spec-modelled builder: the network declarations in module order, then
the key pair from the `PUBLIC_KEY` environment value, then the four
instances.  Returns the resources declared before any failure, and the
failure, if any. -/
def buildTrace (publicKeyEnv : Option String) :
    List Resource × Option BuildError :=
  match runDecls vpcCidr [] preKeyDecls with
  | (declared, some e) => (declared, some e)
  | (declared, none) =>
      match declare_keypair "my-key-pair" "my-key-pair" publicKeyEnv with
      | .error e => (declared, some e)
      | .ok kp => runDecls vpcCidr (declared ++ [kp]) instanceDecls

/-- The first pending resource (declaration order) all of whose
references are already placed, removed from the pending list. -/
def pickReady (placed : List String) :
    List Resource → Option (Resource × List Resource)
  | [] => none
  | r :: rest =>
      if r.refs.all fun n => placed.contains n then
        some (r, rest)
      else
        match pickReady placed rest with
        | none => none
        | some p => some (p.1, r :: p.2)

/-- Modelled from the spec: Kahn's algorithm over the reference graph,
tie-breaking among ready nodes by declaration order, with fuel bounded
by the number of pending resources; failure to make progress is a
`CycleError`. -/
def kahn : Nat → List Resource → List Resource → Except BuildError (List Resource)
  | _, [], acc => .ok acc.reverse
  | 0, _ :: _, _ => .error .cycleError
  | fuel + 1, pending, acc =>
      match pickReady (acc.map Resource.name) pending with
      | none => .error .cycleError
      | some p => kahn fuel p.2 (p.1 :: acc)

/-- Modelled from the spec: `resolve()` performs a topological sort
(Kahn's algorithm, declaration-order tie-break) over the declared
reference graph. -/
def resolve (decls : List Resource) : Except BuildError (List Resource) :=
  kahn decls.length decls []

/-- Every resource's references name only resources placed earlier in
the list (helper walking the list with the names placed so far). -/
def topoOrderedAux : List String → List Resource → Bool
  | _, [] => true
  | placed, r :: rest =>
      (r.refs.all fun n => placed.contains n) &&
        topoOrderedAux (r.name :: placed) rest

/-- The topological invariant of a resolved list: every resource appears
after every resource it references. -/
def topoOrdered (rs : List Resource) : Bool :=
  topoOrderedAux [] rs

/-- Index of the resource with a given logical name in a list. -/
def nameIdx (rs : List Resource) (n : String) : Nat :=
  rs.findIdx fun r => r.name == n

/-- Each instance in the list is placed after every resource it
references (its subnet, security group and key pair). -/
def instancesAfterDeps (rs : List Resource) : Bool :=
  rs.all fun r =>
    !r.isInstanceDecl ||
      r.refs.all fun n => decide (nameIdx rs n < nameIdx rs r.name)

-- Field accessors used to state the claims.

/-- The `map_public_ip_on_launch` flag of a subnet declaration. -/
def subnetPublicFlag (r : Resource) : Option Bool :=
  match r.args with
  | .subnet a => some a.map_public_ip_on_launch
  | _ => none

/-- The CIDR block of a subnet declaration. -/
def subnetCidrOf (r : Resource) : Option Cidr :=
  match r.args with
  | .subnet a => some a.cidr_block
  | _ => none

/-- The `subnet_id` of a NAT gateway declaration. -/
def natSubnetId (r : Resource) : Option String :=
  match r.args with
  | .natGateway a => some a.subnet_id
  | _ => none

/-- The `allocation_id` of a NAT gateway declaration. -/
def natAllocationId (r : Resource) : Option String :=
  match r.args with
  | .natGateway a => some a.allocation_id
  | _ => none

/-- The route rules of a route-table declaration. -/
def routeTableRoutes (r : Resource) : Option (List Route) :=
  match r.args with
  | .routeTable a => some a.routes
  | _ => none

/-- The number of default routes (destination `0.0.0.0/0`) of a
route-table declaration. -/
def defaultRouteCount (r : Resource) : Nat :=
  match routeTableRoutes r with
  | some routes => defaultRouteCountIn routes
  | none => 0

/-- The target of the (first) default route of a route-table
declaration. -/
def defaultRouteTarget (r : Resource) : Option RouteTarget :=
  match routeTableRoutes r with
  | some routes => (routes.find? fun rt => rt.cidr_block == defaultDest).map Route.target
  | none => none

/-- The route-table declarations among a resource list. -/
def routeTablesIn (rs : List Resource) : List Resource :=
  rs.filter fun r => (routeTableRoutes r).isSome

/-- The ingress rules of a security-group declaration. -/
def ingressRules (r : Resource) : List SGRule :=
  match r.args with
  | .securityGroup a => a.ingress
  | _ => []

/-- Whether TCP traffic to `port` from source `0.0.0.0/0` is admitted by
the ingress rules of the resource. -/
def ingressAdmitsTcp (r : Resource) (port : Nat) : Bool :=
  (ingressRules r).any fun rule =>
    rule.protocol == "tcp" && decide (rule.from_port ≤ port) &&
      decide (port ≤ rule.to_port) && rule.cidr_blocks.contains defaultDest

/-- The `subnet_id` of an instance declaration. -/
def instanceSubnetId (r : Resource) : Option String :=
  match r.args with
  | .ec2Instance a => some a.subnet_id
  | _ => none

/-- The `vpc_security_group_ids` of an instance declaration. -/
def instanceSgIds (r : Resource) : Option (List String) :=
  match r.args with
  | .ec2Instance a => some a.vpc_security_group_ids
  | _ => none

/-- The `key_name` of an instance declaration. -/
def instanceKeyName (r : Resource) : Option String :=
  match r.args with
  | .ec2Instance a => some a.key_name
  | _ => none

/-- The `instance_type` of an instance declaration. -/
def instanceTypeOf (r : Resource) : Option String :=
  match r.args with
  | .ec2Instance a => some a.instance_type
  | _ => none

/-- The `ami` of an instance declaration. -/
def instanceAmi (r : Resource) : Option String :=
  match r.args with
  | .ec2Instance a => some a.ami
  | _ => none

/-- The `Name` tag of an instance declaration. -/
def roleTag (r : Resource) : Option String :=
  match r.args with
  | .ec2Instance a => (a.tags.find? fun t => t.1 == "Name").map Prod.snd
  | _ => none

/-- Whether a resource is a security-group declaration. -/
def Resource.isSecurityGroupDecl (r : Resource) : Bool :=
  match r.args with
  | .securityGroup _ => true
  | _ => false

/-- Whether a resource is a key-pair declaration. -/
def Resource.isKeyPairDecl (r : Resource) : Bool :=
  match r.args with
  | .keyPair _ => true
  | _ => false

/-- The key material read from the environment is missing: the value is
absent or its string is empty. -/
def keyMaterialMissing : Option String → Bool
  | none => true
  | some s => s == ""

/-- **C1**: if the `PUBLIC_KEY` environment value is absent, or its key
material is empty, at build time, the build aborts with a `ConfigError`
before any Instance is declared: the declaration trace ends in a
`configError` and contains no instance declaration. -/
theorem missing_public_key_aborts_before_instances (env : Option String)
    (h : keyMaterialMissing env = true) :
    (∃ msg, (buildTrace env).2 = some (.configError msg)) ∧
      (buildTrace env).1.all (fun r => !r.isInstanceDecl) = true := by
  cases env with
  | none => exact ⟨⟨"public key material is absent", rfl⟩, rfl⟩
  | some s =>
      have hs : s = "" := by simpa [keyMaterialMissing] using h
      subst hs
      exact ⟨⟨"public key material is empty", rfl⟩, rfl⟩

/-- Witness for C1: the absent-environment-value run aborts with a
`ConfigError` and declares no instance. -/
theorem missing_public_key_aborts_before_instances_witness :
    (∃ msg, (buildTrace none).2 = some (.configError msg)) ∧
      (buildTrace none).1.all (fun r => !r.isInstanceDecl) = true :=
  missing_public_key_aborts_before_instances none rfl

/-- **C2**, counterexample: the declaration pass (run here with the
spec's scenario key material) declares 4 EC2 instances, not 5 as the
claim states. -/
theorem five_instances_counterexample :
    ((declarations "ssh-rsa AAAA").filter Resource.isInstanceDecl).length = 4 ∧
      ((declarations "ssh-rsa AAAA").filter Resource.isInstanceDecl).length ≠ 5 := by
  exact ⟨rfl, by decide⟩

/-- **C2** (amended): the declaration pass provisions exactly four EC2
instances — one master, two workers and one git-runner, the latter in
the public subnet. -/
theorem four_instances_one_master_two_workers_one_runner (pk : String) :
    ((declarations pk).filter Resource.isInstanceDecl).map Resource.name =
      ["master-instance", "worker-instance-1", "worker-instance-2",
       "git-runner-instance"] ∧
    roleTag master_instance = some "Master Node" ∧
    roleTag worker_instance_1 = some "Worker Node 1" ∧
    roleTag worker_instance_2 = some "Worker Node 2" ∧
    roleTag git_runner_instance = some "Git Runner" ∧
    instanceSubnetId git_runner_instance = some "public-subnet" ∧
    subnetPublicFlag public_subnet = some true :=
  ⟨rfl, rfl, rfl, rfl, rfl, rfl, rfl⟩

/-- **C3**: `resolve` returns the declaration-ordered list; in it every
resource appears after every resource it references, the Network (VPC)
is first, the instances occupy the last four positions with no instance
earlier, and each instance is preceded by its subnet, security group and
key pair (its references all have smaller indices). -/
theorem resolved_list_topologically_ordered (pk : String) :
    resolve (declarations pk) = .ok (declarations pk) ∧
    topoOrdered (declarations pk) = true ∧
    (declarations pk).head? = some vpc ∧
    (declarations pk).drop 12 = instanceDecls ∧
    ((declarations pk).take 12).all (fun r => !r.isInstanceDecl) = true ∧
    instancesAfterDeps (declarations pk) = true :=
  ⟨rfl, rfl, rfl, rfl, rfl, rfl⟩

/-- **C4**: the two declared subnet CIDRs (`10.0.1.0/24`, `10.0.2.0/24`)
do not overlap and are both contained in the network block
(`10.0.0.0/16`); `declare_subnet` rejects an overlapping CIDR with a
`ConfigError`; and any subnet it accepts is contained in the network
block and overlaps no existing subnet. -/
theorem subnet_cidrs_disjoint_and_contained :
    (subnetCidrOf public_subnet = some ⟨10, 0, 1, 0, 24⟩ ∧
     subnetCidrOf private_subnet = some ⟨10, 0, 2, 0, 24⟩ ∧
     Cidr.overlapsWith ⟨10, 0, 1, 0, 24⟩ ⟨10, 0, 2, 0, 24⟩ = false ∧
     Cidr.subsetOf ⟨10, 0, 1, 0, 24⟩ vpcCidr = true ∧
     Cidr.subsetOf ⟨10, 0, 2, 0, 24⟩ vpcCidr = true) ∧
    (∀ net existing c, (existing.any fun e => e.overlapsWith c) = true →
        ∃ msg, declare_subnet net existing c = .error (.configError msg)) ∧
    (∀ net existing c r, declare_subnet net existing c = .ok r →
        c.subsetOf net = true ∧
          (existing.all fun e => !e.overlapsWith c) = true) := by
  refine ⟨⟨rfl, rfl, rfl, rfl, rfl⟩, ?_, ?_⟩
  · intro net existing c h
    by_cases hc : c.subsetOf net = true
    · exact ⟨"subnet CIDR overlaps an existing subnet",
        by simp [declare_subnet, hc, h]⟩
    · exact ⟨"subnet CIDR is not contained in the network block",
        by simp [declare_subnet, hc]⟩
  · intro net existing c r h
    unfold declare_subnet at h
    split at h
    · split at h
      · cases h
      · rename_i h1 h2
        refine ⟨h1, ?_⟩
        simp only [List.all_eq_true, Bool.not_eq_true']
        intro e he
        by_contra hov
        simp only [Bool.not_eq_false] at hov
        exact h2 (List.any_eq_true.mpr ⟨e, he, hov⟩)
    · cases h

/-- Witness for C4: a CIDR overlapping the declared `10.0.1.0/24` is
rejected with a `ConfigError`, and an accepted declaration (the source's
own `10.0.1.0/24` next to `10.0.2.0/24`) is contained and overlap-free. -/
theorem subnet_cidrs_disjoint_and_contained_witness :
    (∃ msg, declare_subnet vpcCidr [⟨10, 0, 1, 0, 24⟩] ⟨10, 0, 1, 128, 25⟩ =
        .error (.configError msg)) ∧
    (Cidr.subsetOf ⟨10, 0, 1, 0, 24⟩ vpcCidr = true ∧
      (([(⟨10, 0, 2, 0, 24⟩ : Cidr)]).all fun e =>
          !e.overlapsWith ⟨10, 0, 1, 0, 24⟩) = true) :=
  ⟨subnet_cidrs_disjoint_and_contained.2.1 vpcCidr
      [⟨10, 0, 1, 0, 24⟩] ⟨10, 0, 1, 128, 25⟩ (by decide),
   subnet_cidrs_disjoint_and_contained.2.2 vpcCidr
      [⟨10, 0, 2, 0, 24⟩] ⟨10, 0, 1, 0, 24⟩ ⟨10, 0, 1, 0, 24⟩ rfl⟩

/-- **C5**: resolution is deterministic — two runs over the source's
declaration sequence with the same `PUBLIC_KEY` value resolve to the
same order, and more generally identical declaration sequences resolve
identically. -/
theorem resolve_deterministic (pk1 pk2 : String) (h : pk1 = pk2) :
    resolve (declarations pk1) = resolve (declarations pk2) ∧
      ∀ d1 d2 : List Resource, d1 = d2 → resolve d1 = resolve d2 := by
  subst h
  exact ⟨rfl, fun d1 d2 hd => by rw [hd]⟩

/-- Witness for C5: two runs with the same concrete key value resolve
identically. -/
theorem resolve_deterministic_witness :
    resolve (declarations "ssh-rsa AAAA") =
      resolve (declarations "ssh-rsa AAAA") :=
  (resolve_deterministic "ssh-rsa AAAA" "ssh-rsa AAAA" rfl).1

/-- **C6**: `attach_nat` fails with a `DependencyError` on any subnet
not flagged public; in this topology the NAT gateway is attached to the
public subnet (whose flag is set) and paired with the Elastic IP
allocation `nat-eip`. -/
theorem attach_nat_requires_public_subnet :
    (∀ s a, s.args = .subnet a → a.map_public_ip_on_launch = false →
        ∃ msg, attach_nat s = .error (.dependencyError msg)) ∧
    attach_nat public_subnet = .ok (eip, nat_gateway) ∧
    natSubnetId nat_gateway = some "public-subnet" ∧
    subnetPublicFlag public_subnet = some true ∧
    natAllocationId nat_gateway = some "nat-eip" ∧
    eip.name = "nat-eip" := by
  refine ⟨?_, rfl, rfl, rfl, rfl, rfl⟩
  intro s a hs hflag
  exact ⟨"NAT subnet is not flagged public", by simp [attach_nat, hs, hflag]⟩

/-- Witness for C6: `attach_nat` on the declared private subnet (flag
`false`) fails with a `DependencyError`. -/
theorem attach_nat_requires_public_subnet_witness :
    ∃ msg, attach_nat private_subnet = .error (.dependencyError msg) :=
  attach_nat_requires_public_subnet.1 private_subnet
    { vpc_id := "my-vpc", cidr_block := ⟨10, 0, 2, 0, 24⟩,
      map_public_ip_on_launch := false,
      availability_zone := "ap-southeast-1a" } rfl rfl

/-- **C7**: the declaration pass declares exactly the two route tables,
each with exactly one default route: the public one targeting the
Internet Gateway, the private one targeting the NAT Gateway; and
`declare_route_table` rejects more than one default route with a
`ConfigError`. -/
theorem route_tables_single_default_route (pk : String) :
    routeTablesIn (declarations pk) = [public_route_table, private_route_table] ∧
    defaultRouteCount public_route_table = 1 ∧
    defaultRouteCount private_route_table = 1 ∧
    defaultRouteTarget public_route_table = some (.gatewayId "internet-gateway") ∧
    defaultRouteTarget private_route_table = some (.natGatewayId "nat-gateway") ∧
    (∀ n v routes, 1 < defaultRouteCountIn routes →
        ∃ msg, declare_route_table n v routes = .error (.configError msg)) := by
  refine ⟨rfl, rfl, rfl, rfl, rfl, ?_⟩
  intro n v routes h
  exact ⟨"more than one default route in a route table",
    by simp [declare_route_table, Nat.not_le_of_lt h]⟩

/-- Witness for C7: a rule list with two default routes is rejected with
a `ConfigError`. -/
theorem route_tables_single_default_route_witness :
    ∃ msg, declare_route_table "extra-default-route-table" "my-vpc"
        [{ cidr_block := defaultDest, target := .gatewayId "internet-gateway" },
         { cidr_block := defaultDest, target := .natGatewayId "nat-gateway" }] =
      .error (.configError msg) :=
  (route_tables_single_default_route "ssh-rsa BBBB").2.2.2.2.2
    "extra-default-route-table" "my-vpc"
    [{ cidr_block := defaultDest, target := .gatewayId "internet-gateway" },
     { cidr_block := defaultDest, target := .natGatewayId "nat-gateway" }]
    (by decide)

/-- **C8**: the declared security group's ingress admits TCP traffic
from `0.0.0.0/0` exactly on ports 22 and 6443; it has exactly the two
ingress rules, each TCP with source list `[0.0.0.0/0]`. -/
theorem security_group_ingress_exactly_ssh_and_k3s (port : Nat) :
    (ingressAdmitsTcp security_group port = true ↔ port = 22 ∨ port = 6443) ∧
    (ingressRules security_group).length = 2 ∧
    (ingressRules security_group).all
      (fun rule => rule.protocol == "tcp" &&
        rule.cidr_blocks == [defaultDest]) = true := by
  refine ⟨?_, rfl, rfl⟩
  simp [ingressAdmitsTcp, ingressRules, security_group, defaultDest]
  omega

/-- Witness for C8: port 22 is admitted; port 80 is not. -/
theorem security_group_ingress_exactly_ssh_and_k3s_witness :
    ingressAdmitsTcp security_group 22 = true ∧
      ingressAdmitsTcp security_group 80 = false :=
  ⟨(security_group_ingress_exactly_ssh_and_k3s 22).1.mpr (Or.inl rfl), rfl⟩

/-- **C9**: the build emits exactly the four named outputs, in source
order; `git_runner_public_ip` reads the git-runner instance's public IP
and the other three read the corresponding instance's private IP; every
exported instance name is one of the declared instances. -/
theorem exports_four_ip_outputs :
    exportsList.map ExportEntry.name =
      ["git_runner_public_ip", "master_private_ip",
       "worker1_private_ip", "worker2_private_ip"] ∧
    exportSource "git_runner_public_ip" =
      some ("git-runner-instance", .publicIp) ∧
    exportSource "master_private_ip" = some ("master-instance", .privateIp) ∧
    exportSource "worker1_private_ip" =
      some ("worker-instance-1", .privateIp) ∧
    exportSource "worker2_private_ip" =
      some ("worker-instance-2", .privateIp) ∧
    (exportsList.all fun e =>
        instanceDecls.any fun r => r.name == e.instanceName) = true :=
  ⟨rfl, rfl, rfl, rfl, rfl, rfl⟩

/-- **C10**: the master and both workers are declared in the private
subnet (`map_public_ip_on_launch = false`), only the git-runner is in
the public subnet, and all four instances reference the one declared
security group (`web-secgrp`), the one declared key pair
(`my-key-pair`), the same instance type and the same AMI. -/
theorem instance_placement_and_shared_config (pk : String) :
    instanceSubnetId master_instance = some "private-subnet" ∧
    instanceSubnetId worker_instance_1 = some "private-subnet" ∧
    instanceSubnetId worker_instance_2 = some "private-subnet" ∧
    instanceSubnetId git_runner_instance = some "public-subnet" ∧
    subnetPublicFlag private_subnet = some false ∧
    subnetPublicFlag public_subnet = some true ∧
    (((declarations pk).filter fun r =>
        r.isInstanceDecl && (instanceSubnetId r == some "public-subnet")).map
      Resource.name) = ["git-runner-instance"] ∧
    ((declarations pk).filter Resource.isSecurityGroupDecl).map Resource.name =
      ["web-secgrp"] ∧
    ((declarations pk).filter Resource.isKeyPairDecl).map Resource.name =
      ["my-key-pair"] ∧
    (instanceDecls.all fun r =>
        instanceSgIds r == some ["web-secgrp"] &&
        instanceKeyName r == some "my-key-pair" &&
        instanceTypeOf r == some instance_type &&
        instanceAmi r == some ami) = true :=
  ⟨rfl, rfl, rfl, rfl, rfl, rfl, rfl, rfl, rfl, rfl⟩

end Infra
